import Mathlib

/-!
Verification of the pet_equations evapotranspiration library.

The numeric functions of the library are embedded shallowly over the reals:
numpy elementwise array formulas become real-valued functions, Python `None`
becomes `Option`, Python string dispatch stays on `String`, literal-typed
dispatch becomes an inductive type, and functions that can fall through
without a return value produce `Option` results.  The input-validation size
checks operate on array sizes only, so they are embedded as functions of the
sizes, returning `Except` to model raised `ValueError`s.
-/

namespace astronomical_variables

/-- Estimate of daylight hours N from the sunset hour angle (hours). -/
noncomputable def daylight_hours (sha : ℝ) : ℝ :=
  (24 / Real.pi) * sha

/-- Sunset hour angle: arccos of minus tan latitude times tan declination. -/
noncomputable def sunset_hour_angle (latitude solar_dec : ℝ) : ℝ :=
  Real.arccos (-Real.tan latitude * Real.tan solar_dec)

/-- Inverse relative distance earth-sun for a day of year. -/
noncomputable def relative_distance_earth_sun (doy : ℕ) : ℝ :=
  1 + 0.033 * Real.cos (2 * Real.pi * doy / 365)

/-- Solar declination in radians for a day of year. -/
noncomputable def solar_declination (doy : ℕ) : ℝ :=
  0.409 * Real.sin (2 * Real.pi * doy / 365 - 1.39)

end astronomical_variables

namespace meteorological_variables

/-- Atmospheric pressure at a given altitude (kPa). -/
noncomputable def atmospheric_pressure (altitude : ℝ) : ℝ :=
  101.3 * (((293 - 0.0065 * altitude) / 293) ^ (5.26 : ℝ))

/-- Psychrometric constant from atmospheric pressure (kPa per degree C). -/
noncomputable def psychrometric_constant (atmospheric_pressure : ℝ) : ℝ :=
  0.665e-3 * atmospheric_pressure

/-- FAO-56 saturation vapour pressure at a temperature (kPa). -/
noncomputable def saturation_vapor_pressure (temperature : ℝ) : ℝ :=
  0.6108 * Real.exp (17.27 * temperature / (temperature + 237.3))

/-- Mean saturation vapour pressure: average of the values at tmin and tmax. -/
noncomputable def mean_saturation_vapor_pressure (tmin tmax : ℝ) : ℝ :=
  (saturation_vapor_pressure tmin + saturation_vapor_pressure tmax) / 2

/-- Slope of the saturation vapour pressure curve at a temperature. -/
noncomputable def slope_saturation_vapour_pressure_curve (temperature : ℝ) : ℝ :=
  4098 * 0.6108 * Real.exp (17.27 * temperature / (temperature + 237.3)) /
    (temperature + 237.3) ^ 2

/-- Actual vapour pressure from saturation vapour pressure and mean relative humidity. -/
noncomputable def actual_vapour_pressure (es rhmean : ℝ) : ℝ :=
  es * rhmean / 100

/-- Wind speed adjusted to 2 m above ground. -/
noncomputable def wind_speed_at_2m (uz z : ℝ) : ℝ :=
  uz * 4.87 / Real.log (67.8 * z - 5.42)

end meteorological_variables

namespace radiation_variables

/-- Solar (shortwave) radiation from sunshine duration and extraterrestrial radiation.
The source defaults are a_s = 0.25 and b_s = 0.5. -/
noncomputable def solar_radiation (n N ra a_s b_s : ℝ) : ℝ :=
  (a_s + b_s * (n / N)) * ra

/-- Net shortwave radiation; the source default albedo is alpha = 0.23. -/
def net_shortwave_radiation (rs alpha : ℝ) : ℝ :=
  (1 - alpha) * rs

/-- Clear-sky shortwave radiation at an altitude. -/
def clear_sky_shortwave_radiation (altitude ra : ℝ) : ℝ :=
  (0.75 + 2e-5 * altitude) * ra

/-- Net longwave radiation; the ratio rs over rso is capped at 1 via the
elementwise conditional of the source. -/
noncomputable def net_longwave_radiation (tmax tmin rs rso ea : ℝ) : ℝ :=
  4.903e-9 * 0.5 * ((tmax + 273.16) ^ 4 + (tmin + 273.16) ^ 4) *
    (0.34 - 0.14 * Real.sqrt ea) *
    (1.35 * (if rs / rso ≤ 1 then rs / rso else 1) - 0.35)

/-- Extraterrestrial radiation in MJ per square metre per day, with the solar
constant Gsc = 0.0820. -/
noncomputable def extra_terrestrial_radiation
    (rel_dist_es sha latitude solar_dec : ℝ) : ℝ :=
  (24.0 * 60.0 / Real.pi) * 0.0820 * rel_dist_es *
    (sha * Real.sin latitude * Real.sin solar_dec +
      Real.cos latitude * Real.cos solar_dec * Real.sin sha)

/-- Aggregation periods accepted by the soil heat flux function, mirroring the
Literal type of the source. -/
inductive TimeInterval
  | daily
  | dekadal
  | monthly

/-- Soil heat flux: zero for daily and dekadal aggregation; for monthly
aggregation it uses the previous-month temperature, and the next-month
temperature when that is available. -/
def soil_heat_flux (temp_iminus1 temp_i : ℝ) (temp_iplus1 : Option ℝ)
    (time_interval : TimeInterval) : ℝ :=
  match time_interval with
  | TimeInterval.daily => 0.0
  | TimeInterval.dekadal => 0.0
  | TimeInterval.monthly =>
    match temp_iplus1 with
    | none => 0.14 * (temp_i - temp_iminus1)
    | some tp => 0.07 * (tp - temp_iminus1)

/-- Soil heat flux for hourly or shorter periods.  The source dispatches on
the period label and has no return statement for any other label, so the
Python function yields None there; the embedding returns an Option. -/
def soil_heat_flux_for_hourly_or_short_periods (rn : ℝ) (period : String) :
    Option ℝ :=
  if period = "daylight" then some (0.1 * rn)
  else if period = "nighttime" then some (0.5 * rn)
  else none

end radiation_variables

namespace alternatives_equations

/-- Historical extraterrestrial radiation variant in mm per day, using the
constant 15.392. -/
noncomputable def extra_terrestrial_radiation
    (rel_dist_es sha latitude solar_dec : ℝ) : ℝ :=
  15.392 * rel_dist_es *
    (sha * Real.sin latitude * Real.sin solar_dec +
      Real.cos latitude * Real.cos solar_dec * Real.sin sha)

/-- Alternative sunset hour angle formulation: the intermediate quantity
x = 1 - tan^2(lat) * tan^2(dec) is floored at 0.00001 before the square root. -/
noncomputable def sunset_hour_angle (latitude solar_dec : ℝ) : ℝ :=
  let x := 1 - Real.tan latitude ^ 2 * Real.tan solar_dec ^ 2
  let xc := if x > 0 then x else 0.00001
  Real.pi / 2 - Real.arctan (-Real.tan latitude * Real.tan solar_dec / Real.sqrt xc)

end alternatives_equations

namespace meteorological_vars

/-- Hamon-specific saturation vapor pressure in millibars, with the constant
set 6.108, 17.26939, 237.3 of Lu et al. (2005). -/
noncomputable def saturation_vapor_pressure (temp : ℝ) : ℝ :=
  6.108 * Real.exp (17.26939 * temp / (temp + 237.3))

end meteorological_vars

namespace hamon

/-- Elementwise Hamon evaluator with daylight hours supplied by the caller:
kpec is set to 1 and the result is zero for temperatures below zero. -/
noncomputable def calculate (temp_c lat_deg : ℝ) (doy : ℕ) (d_hours : ℝ) : ℝ :=
  let kpec : ℝ := 1
  let svp := meteorological_vars.saturation_vapor_pressure temp_c
  if temp_c < 0.0 then 0.0
  else kpec * 0.165 * (d_hours / 12) * 216.7 * (svp / (temp_c + 273.3))

end hamon

namespace penman_monteith_FAO

/-- Mean temperature actually used by the evaluator.  The source guard is the
Python truthiness test on the supplied value, so the recomputation from tmax
and tmin happens both when tmean is absent and when it equals zero. -/
noncomputable def effective_tmean (tmax tmin : ℝ) (tmean : Option ℝ) : ℝ :=
  match tmean with
  | none => (tmax + tmin) / 2
  | some t => if t = 0 then (tmax + tmin) / 2 else t

/-- Penman-Monteith FAO-56 evaluator of the source: computes es from the
effective mean temperature, ea from mean relative humidity, the psychrometric
constant from altitude, and combines them into ETo.  The latitude and day of
year parameters are accepted but unused, as in the source. -/
noncomputable def calculate (tmax tmin : ℝ) (tmean : Option ℝ)
    (rn rhmean u2 altitude latitude : ℝ) (doy : ℕ) (g : ℝ) : ℝ :=
  let t := effective_tmean tmax tmin tmean
  let es := meteorological_variables.saturation_vapor_pressure t
  let ea := meteorological_variables.actual_vapour_pressure es rhmean
  let atm_p := meteorological_variables.atmospheric_pressure altitude
  let psi_const := meteorological_variables.psychrometric_constant atm_p
  let delta := meteorological_variables.slope_saturation_vapour_pressure_curve t
  (0.408 * delta * (rn - g) + psi_const * 900.0 * u2 * (es - ea) / (t + 273)) /
    (delta + psi_const * (1 + 0.34 * u2))

/-- Modelled from the spec: the evaluator variant invoked by the repository
tests, taking the precomputed mean temperature, slope delta, saturation and
actual vapour pressures and psychrometric constant, is missing from src; per
the spec it combines them as
ETo = (0.408 delta (Rn - G) + gamma 900/(T+273) u2 (es - ea)) /
(delta + gamma (1 + 0.34 u2)). -/
noncomputable def calculate_precomputed
    (tmean delta es ea psi_const rn u2 g : ℝ) : ℝ :=
  (0.408 * delta * (rn - g) + psi_const * (900 / (tmean + 273)) * u2 * (es - ea)) /
    (delta + psi_const * (1 + 0.34 * u2))

end penman_monteith_FAO

namespace checking

/-- Message of the ValueError raised for a latitude of invalid size. -/
def latitude_error_message : String :=
  "Latitude array must have length = 1 or the same length as others parameters."

/-- Message of the ValueError raised when array sizes disagree. -/
def size_error_message : String :=
  "Arrays of tmin, tmax, tmean and doy must have the same length."

/-- Latitude size check: fails unless the size is 1 or the maximum size. -/
def _check_latitude (latitude_size max_size : ℕ) : Except String Unit :=
  if latitude_size ≠ 1 ∧ latitude_size ≠ max_size then
    Except.error latitude_error_message
  else Except.ok ()

/-- Array size check: raises at the first element whose size differs from the
maximum size, as the source loop does. -/
def _check_array_sizes : List ℕ → ℕ → Except String Unit
  | [], _ => Except.ok ()
  | s :: rest, max_size =>
    if s ≠ max_size then Except.error size_error_message
    else _check_array_sizes rest max_size

end checking

namespace hargreaves

/-- Validation prefix of the Hargreaves evaluator, as a function of the input
array sizes: the maximum size is taken over latitude, tmin, tmax and doy, the
latitude check runs first, then the array size check over tmin, tmax, tmean
and doy. -/
def size_checks (latitude_size tmin_size tmax_size tmean_size doy_size : ℕ) :
    Except String Unit :=
  let max_size := max (max (max latitude_size tmin_size) tmax_size) doy_size
  match checking._check_latitude latitude_size max_size with
  | Except.error e => Except.error e
  | Except.ok _ =>
    checking._check_array_sizes [tmin_size, tmax_size, tmean_size, doy_size] max_size

end hargreaves

namespace bangkok

/-- Site altitude of the Bangkok example (m). -/
def altitude : ℝ := 2

/-- Day of year of the Bangkok example, April 15. -/
def doy : ℕ := 105

/-- Latitude of the Bangkok example in decimal degrees. -/
def latitude_graus : ℝ := 13.73

/-- Monthly average daily maximum temperature (degrees C). -/
def tmax : ℝ := 34.8

/-- Monthly average daily minimum temperature (degrees C). -/
def tmin : ℝ := 25.6

/-- Monthly average daily vapour pressure (kPa). -/
def ea : ℝ := 2.85

/-- Monthly average daily wind speed (m/s). -/
def u2 : ℝ := 2.0

/-- Monthly average sunshine duration (hours/day). -/
def sunshine : ℝ := 8.5

/-- Mean monthly temperature of the preceding month, March (degrees C). -/
def temp_march : ℝ := 29.2

/-- Mean monthly temperature of April (degrees C). -/
def temp_april : ℝ := 30.2

/-- Mean temperature derived from tmax and tmin. -/
noncomputable def tmean : ℝ := (tmax + tmin) / 2

/-- Latitude converted to radians. -/
noncomputable def lat_rad : ℝ := latitude_graus * (Real.pi / 180)

/-- Inverse relative distance earth-sun at doy 105. -/
noncomputable def rel_dist_es : ℝ :=
  astronomical_variables.relative_distance_earth_sun doy

/-- Solar declination at doy 105. -/
noncomputable def solar_dec : ℝ := astronomical_variables.solar_declination doy

/-- Sunset hour angle at the Bangkok latitude and declination. -/
noncomputable def sha : ℝ :=
  astronomical_variables.sunset_hour_angle lat_rad solar_dec

/-- Daylight hours at the Bangkok sunset hour angle. -/
noncomputable def daylight_hrs : ℝ := astronomical_variables.daylight_hours sha

/-- Extraterrestrial radiation for the Bangkok example. -/
noncomputable def ra : ℝ :=
  radiation_variables.extra_terrestrial_radiation rel_dist_es sha lat_rad solar_dec

/-- Solar radiation from the sunshine duration, with default regression
constants. -/
noncomputable def rs : ℝ :=
  radiation_variables.solar_radiation sunshine daylight_hrs ra 0.25 0.5

/-- Clear-sky shortwave radiation. -/
noncomputable def rso : ℝ :=
  radiation_variables.clear_sky_shortwave_radiation altitude ra

/-- Net shortwave radiation with the default albedo. -/
noncomputable def rns : ℝ := radiation_variables.net_shortwave_radiation rs 0.23

/-- Net longwave radiation. -/
noncomputable def rnl : ℝ :=
  radiation_variables.net_longwave_radiation tmax tmin rs rso ea

/-- Net radiation: net shortwave minus net longwave. -/
noncomputable def rn : ℝ := rns - rnl

/-- Soil heat flux by the monthly rule without a next-month temperature. -/
def g : ℝ :=
  radiation_variables.soil_heat_flux temp_march temp_april none
    radiation_variables.TimeInterval.monthly

/-- Slope of the saturation vapour pressure curve at the mean temperature. -/
noncomputable def delta : ℝ :=
  meteorological_variables.slope_saturation_vapour_pressure_curve tmean

/-- Atmospheric pressure at the Bangkok altitude. -/
noncomputable def atm_p : ℝ := meteorological_variables.atmospheric_pressure altitude

/-- Psychrometric constant at the Bangkok altitude. -/
noncomputable def psi_const : ℝ :=
  meteorological_variables.psychrometric_constant atm_p

/-- Mean saturation vapour pressure over tmin and tmax. -/
noncomputable def es : ℝ :=
  meteorological_variables.mean_saturation_vapor_pressure tmin tmax

/-- Reference evapotranspiration of the Bangkok example via the full chain. -/
noncomputable def eto : ℝ :=
  penman_monteith_FAO.calculate_precomputed tmean delta es ea psi_const rn u2 g

end bangkok

/-- C1: with tmean absent, the Penman-Monteith FAO evaluator returns exactly
(0.408 Delta (Rn-G) + gamma (900/(tmean+273)) u2 (es-ea)) /
(Delta + gamma (1+0.34 u2)) with tmean = (tmax+tmin)/2,
es = 0.6108 exp(17.27 tmean/(tmean+237.3)), ea = es rhmean/100,
gamma = 0.665e-3 101.3 ((293-0.0065 altitude)/293)^5.26 and
Delta = 4098 0.6108 exp(17.27 tmean/(tmean+237.3))/(tmean+237.3)^2. -/
theorem C1_calculate_formula (tmax tmin rn rhmean u2 altitude latitude : ℝ)
    (doy : ℕ) (g : ℝ) :
    penman_monteith_FAO.calculate tmax tmin none rn rhmean u2 altitude latitude doy g =
      (0.408 *
          (4098 * 0.6108 *
              Real.exp (17.27 * ((tmax + tmin) / 2) / ((tmax + tmin) / 2 + 237.3)) /
            ((tmax + tmin) / 2 + 237.3) ^ 2) * (rn - g) +
        0.665e-3 * (101.3 * (((293 - 0.0065 * altitude) / 293) ^ (5.26 : ℝ))) *
          (900 / ((tmax + tmin) / 2 + 273)) * u2 *
          (0.6108 * Real.exp (17.27 * ((tmax + tmin) / 2) / ((tmax + tmin) / 2 + 237.3)) -
            0.6108 * Real.exp (17.27 * ((tmax + tmin) / 2) / ((tmax + tmin) / 2 + 237.3)) *
              rhmean / 100)) /
      ((4098 * 0.6108 *
            Real.exp (17.27 * ((tmax + tmin) / 2) / ((tmax + tmin) / 2 + 237.3)) /
          ((tmax + tmin) / 2 + 237.3) ^ 2) +
        0.665e-3 * (101.3 * (((293 - 0.0065 * altitude) / 293) ^ (5.26 : ℝ))) *
          (1 + 0.34 * u2)) := by
  simp only [penman_monteith_FAO.calculate, penman_monteith_FAO.effective_tmean,
    meteorological_variables.saturation_vapor_pressure,
    meteorological_variables.actual_vapour_pressure,
    meteorological_variables.atmospheric_pressure,
    meteorological_variables.psychrometric_constant,
    meteorological_variables.slope_saturation_vapour_pressure_curve]
  ring

/-- C10: the evaluator replaces the supplied tmean whenever it is falsy, not
only when it is absent: an explicit tmean of 0.0 degrees is discarded and
recomputed as (tmax+tmin)/2, so the result with tmean = 0 coincides with the
tmean-absent result for all inputs (in particular for tmax = -tmin). -/
theorem C10_tmean_zero_truthiness :
    (∀ tmax tmin : ℝ,
        penman_monteith_FAO.effective_tmean tmax tmin (some 0) = (tmax + tmin) / 2) ∧
    (∀ (tmax tmin rn rhmean u2 altitude latitude : ℝ) (doy : ℕ) (g : ℝ),
        penman_monteith_FAO.calculate tmax tmin (some 0) rn rhmean u2 altitude
            latitude doy g =
          penman_monteith_FAO.calculate tmax tmin none rn rhmean u2 altitude
            latitude doy g) := by
  constructor
  · intro tmax tmin
    simp [penman_monteith_FAO.effective_tmean]
  · intro tmax tmin rn rhmean u2 altitude latitude doy g
    simp [penman_monteith_FAO.calculate, penman_monteith_FAO.effective_tmean]

/-- C3: the soil heat flux is zero for daily and dekadal aggregation; for
monthly aggregation it is 0.14 (Ti - Tim1) without a next-period temperature
and 0.07 (Tip1 - Tim1) with one. -/
theorem C3_soil_heat_flux_cases (temp_iminus1 temp_i tp : ℝ) (tplus : Option ℝ) :
    radiation_variables.soil_heat_flux temp_iminus1 temp_i tplus
        radiation_variables.TimeInterval.daily = 0 ∧
    radiation_variables.soil_heat_flux temp_iminus1 temp_i tplus
        radiation_variables.TimeInterval.dekadal = 0 ∧
    radiation_variables.soil_heat_flux temp_iminus1 temp_i none
        radiation_variables.TimeInterval.monthly = 0.14 * (temp_i - temp_iminus1) ∧
    radiation_variables.soil_heat_flux temp_iminus1 temp_i (some tp)
        radiation_variables.TimeInterval.monthly = 0.07 * (tp - temp_iminus1) := by
  refine ⟨?_, ?_, rfl, rfl⟩ <;> norm_num [radiation_variables.soil_heat_flux]

/-- C4 counterexample: for the unrecognized period label "hourly" the hourly
soil heat flux function returns None (the Python fall-through), instead of
failing with an error as the claim requires. -/
theorem C4_counterexample :
    radiation_variables.soil_heat_flux_for_hourly_or_short_periods 1 ("hourly") =
      none := by
  rfl

/-- C4 amended: the function returns 0.1 Rn for daylight and 0.5 Rn for
nighttime, and for any other period label it silently returns None rather
than failing with an error. -/
theorem C4_amended_behaviour (rn : ℝ) (period : String) :
    radiation_variables.soil_heat_flux_for_hourly_or_short_periods rn
        ("daylight") = some (0.1 * rn) ∧
    radiation_variables.soil_heat_flux_for_hourly_or_short_periods rn
        ("nighttime") = some (0.5 * rn) ∧
    (period ≠ "daylight" → period ≠ "nighttime" →
      radiation_variables.soil_heat_flux_for_hourly_or_short_periods rn period =
        none) := by
  refine ⟨rfl, rfl, ?_⟩
  intro h1 h2
  simp [radiation_variables.soil_heat_flux_for_hourly_or_short_periods, h1, h2]

/-- C4 amended witness at the concrete label "hourly" and Rn = 2. -/
theorem C4_amended_witness :
    ("hourly" : String) ≠ "daylight" ∧ ("hourly" : String) ≠ "nighttime" ∧
      radiation_variables.soil_heat_flux_for_hourly_or_short_periods 2 ("hourly") =
        none :=
  ⟨by decide, by decide,
    (C4_amended_behaviour 2 ("hourly")).2.2 (by decide) (by decide)⟩

/-- C5 counterexample: at dr = 1, sha = pi/2, latitude 0 and declination 0
the historical mm per day variant gives 15.392 while 0.408 times the
canonical MJ form gives 0.408 (24 60/pi) 0.082, and these differ. -/
theorem C5_counterexample :
    alternatives_equations.extra_terrestrial_radiation 1 (Real.pi / 2) 0 0 ≠
      0.408 * radiation_variables.extra_terrestrial_radiation 1 (Real.pi / 2) 0 0 := by
  intro h
  simp only [alternatives_equations.extra_terrestrial_radiation,
    radiation_variables.extra_terrestrial_radiation, Real.sin_zero, Real.cos_zero,
    Real.sin_pi_div_two, mul_zero, zero_mul, mul_one, one_mul, add_zero, zero_add] at h
  have hπ := Real.pi_gt_d6
  have hπ2 := Real.pi_pos
  field_simp at h
  nlinarith

/-- C5 amended: the historical mm per day variant is proportional to the
canonical MJ form, with exact ratio 15.392 pi / 118.08 (about 0.4095), not
the 0.408 unit-conversion factor. -/
theorem C5_amended_ratio (rel_dist_es sha latitude solar_dec : ℝ) :
    alternatives_equations.extra_terrestrial_radiation rel_dist_es sha latitude
        solar_dec =
      15.392 * Real.pi / 118.08 *
        radiation_variables.extra_terrestrial_radiation rel_dist_es sha latitude
          solar_dec := by
  simp only [alternatives_equations.extra_terrestrial_radiation,
    radiation_variables.extra_terrestrial_radiation]
  field_simp
  ring

/-- C7: the Hamon evaluator returns 0 for mean temperatures below zero and
otherwise 0.165 (daylight/12) 216.7 (svp/(tmean+273.3)) with the
Hamon-specific saturation vapor pressure 6.108 exp(17.26939 T/(T+237.3)),
and that svp function differs from the FAO saturation vapor pressure used by
the Penman-Monteith chain. -/
theorem C7_hamon_formula_and_distinct_svp :
    (∀ (temp_c lat_deg : ℝ) (doy : ℕ) (d_hours : ℝ),
        hamon.calculate temp_c lat_deg doy d_hours =
          if temp_c < 0 then 0
          else 0.165 * (d_hours / 12) * 216.7 *
            (6.108 * Real.exp (17.26939 * temp_c / (temp_c + 237.3)) /
              (temp_c + 273.3))) ∧
      meteorological_vars.saturation_vapor_pressure ≠
        meteorological_variables.saturation_vapor_pressure := by
  constructor
  · intro temp_c lat_deg doy d_hours
    simp only [hamon.calculate, meteorological_vars.saturation_vapor_pressure]
    norm_num
  · intro hcontra
    have h0 := congrFun hcontra 0
    simp only [meteorological_vars.saturation_vapor_pressure,
      meteorological_variables.saturation_vapor_pressure] at h0
    norm_num [Real.exp_zero] at h0

/-- C8: the net longwave radiation equals the Stefan-Boltzmann expression in
which the shortwave ratio Rs/Rso enters clamped as min(Rs/Rso, 1). -/
theorem C8_net_longwave_min (tmax tmin rs rso ea : ℝ) :
    radiation_variables.net_longwave_radiation tmax tmin rs rso ea =
      4.903e-9 * 0.5 * ((tmax + 273.16) ^ 4 + (tmin + 273.16) ^ 4) *
        (0.34 - 0.14 * Real.sqrt ea) * (1.35 * min (rs / rso) 1 - 0.35) := by
  simp only [radiation_variables.net_longwave_radiation]
  rw [min_def]

/-- C6: for latitude and declination with the arccos argument strictly inside
the unit interval, the direct sunset hour angle arccos(-tan lat tan dec)
equals the alternative clamped formulation
pi/2 - arctan(-tan lat tan dec / sqrt(1 - tan^2 lat tan^2 dec)). -/
theorem C6_sunset_hour_angle_equivalence (latitude solar_dec : ℝ)
    (h : |Real.tan latitude * Real.tan solar_dec| < 1) :
    astronomical_variables.sunset_hour_angle latitude solar_dec =
      alternatives_equations.sunset_hour_angle latitude solar_dec := by
  have ht1 : -1 < Real.tan latitude * Real.tan solar_dec := (abs_lt.mp h).1
  have ht2 : Real.tan latitude * Real.tan solar_dec < 1 := (abs_lt.mp h).2
  have hsq : Real.tan latitude ^ 2 * Real.tan solar_dec ^ 2 =
      (Real.tan latitude * Real.tan solar_dec) ^ 2 := by ring
  have hx : 1 - Real.tan latitude ^ 2 * Real.tan solar_dec ^ 2 > 0 := by
    rw [hsq]; nlinarith
  have harcsin := Real.arcsin_eq_arctan
    (show -(Real.tan latitude * Real.tan solar_dec) ∈ Set.Ioo (-(1 : ℝ)) 1 from
      Set.mem_Ioo.mpr ⟨by linarith, by linarith⟩)
  simp only [astronomical_variables.sunset_hour_angle,
    alternatives_equations.sunset_hour_angle]
  rw [if_pos hx, Real.arccos_eq_pi_div_two_sub_arcsin,
    show -Real.tan latitude * Real.tan solar_dec =
      -(Real.tan latitude * Real.tan solar_dec) from by ring,
    show (1 : ℝ) - Real.tan latitude ^ 2 * Real.tan solar_dec ^ 2 =
      1 - (-(Real.tan latitude * Real.tan solar_dec)) ^ 2 from by ring,
    harcsin]

/-- C6 witness at latitude 0 and declination 0, where the arccos argument is 0. -/
theorem C6_witness :
    |Real.tan 0 * Real.tan 0| < 1 ∧
      astronomical_variables.sunset_hour_angle 0 0 =
        alternatives_equations.sunset_hour_angle 0 0 :=
  ⟨by norm_num [Real.tan_zero],
    C6_sunset_hour_angle_equivalence 0 0 (by norm_num [Real.tan_zero])⟩

/-- Unfolding of the Hargreaves validation prefix: the latitude check decides
first, then the array size check runs against the maximum size. -/
theorem size_checks_eq (lat_s tmin_s tmax_s tmean_s doy_s : ℕ) :
    hargreaves.size_checks lat_s tmin_s tmax_s tmean_s doy_s =
      if lat_s ≠ 1 ∧ lat_s ≠ max (max (max lat_s tmin_s) tmax_s) doy_s then
        Except.error checking.latitude_error_message
      else
        checking._check_array_sizes [tmin_s, tmax_s, tmean_s, doy_s]
          (max (max (max lat_s tmin_s) tmax_s) doy_s) := by
  simp only [hargreaves.size_checks, checking._check_latitude]
  split_ifs with h
  · rfl
  · rfl

/-- Soundness of the array size check: success means every listed size equals
the maximum size. -/
theorem check_array_sizes_ok_iff (l : List ℕ) (m : ℕ) :
    checking._check_array_sizes l m = Except.ok () ↔ ∀ s ∈ l, s = m := by
  induction l with
  | nil => simp [checking._check_array_sizes]
  | cons s rest ih =>
    by_cases hs : s = m
    · simp [checking._check_array_sizes, hs, ih]
    · simp [checking._check_array_sizes, hs]

/-- The array size check either succeeds or raises the size mismatch error. -/
theorem check_array_sizes_ok_or_error (l : List ℕ) (m : ℕ) :
    checking._check_array_sizes l m = Except.ok () ∨
      checking._check_array_sizes l m =
        Except.error checking.size_error_message := by
  induction l with
  | nil => exact Or.inl rfl
  | cons s rest ih =>
    by_cases hs : s ≠ m
    · right
      simp [checking._check_array_sizes, hs]
    · simpa [checking._check_array_sizes, hs] using ih

/-- C9: whenever any two of the non-latitude sizes (tmin, tmax, tmean, doy)
differ, the Hargreaves validation fails with an error; a latitude of size 1
never produces the latitude size failure; and the latitude failure occurs
exactly when the latitude size is neither 1 nor the maximum size. -/
theorem C9_hargreaves_size_checks (lat_s tmin_s tmax_s tmean_s doy_s : ℕ) :
    (¬(tmin_s = tmax_s ∧ tmax_s = tmean_s ∧ tmean_s = doy_s) →
        ∃ e, hargreaves.size_checks lat_s tmin_s tmax_s tmean_s doy_s =
          Except.error e) ∧
    (lat_s = 1 →
        hargreaves.size_checks lat_s tmin_s tmax_s tmean_s doy_s ≠
          Except.error checking.latitude_error_message) ∧
    (hargreaves.size_checks lat_s tmin_s tmax_s tmean_s doy_s =
          Except.error checking.latitude_error_message ↔
        lat_s ≠ 1 ∧ lat_s ≠ max (max (max lat_s tmin_s) tmax_s) doy_s) := by
  refine ⟨?_, ?_, ?_⟩
  · intro hne
    rw [size_checks_eq]
    by_cases hl : lat_s ≠ 1 ∧ lat_s ≠ max (max (max lat_s tmin_s) tmax_s) doy_s
    · rw [if_pos hl]
      exact ⟨_, rfl⟩
    · rw [if_neg hl]
      rcases check_array_sizes_ok_or_error [tmin_s, tmax_s, tmean_s, doy_s]
          (max (max (max lat_s tmin_s) tmax_s) doy_s) with hok | herr
      · exfalso
        have hall := (check_array_sizes_ok_iff _ _).mp hok
        have h1 := hall tmin_s (by simp)
        have h2 := hall tmax_s (by simp)
        have h3 := hall tmean_s (by simp)
        have h4 := hall doy_s (by simp)
        exact hne ⟨h1.trans h2.symm, h2.trans h3.symm, h3.trans h4.symm⟩
      · exact ⟨_, herr⟩
  · intro h1
    rw [size_checks_eq, if_neg (by simp [h1])]
    rcases check_array_sizes_ok_or_error [tmin_s, tmax_s, tmean_s, doy_s]
        (max (max (max lat_s tmin_s) tmax_s) doy_s) with hok | herr
    · rw [hok]
      simp
    · rw [herr]
      intro hcontra
      injection hcontra with hmsg
      exact absurd hmsg (by decide)
  · rw [size_checks_eq]
    constructor
    · intro heq
      by_cases hl : lat_s ≠ 1 ∧ lat_s ≠ max (max (max lat_s tmin_s) tmax_s) doy_s
      · exact hl
      · exfalso
        rw [if_neg hl] at heq
        rcases check_array_sizes_ok_or_error [tmin_s, tmax_s, tmean_s, doy_s]
            (max (max (max lat_s tmin_s) tmax_s) doy_s) with hok | herr
        · rw [hok] at heq
          simp at heq
        · rw [herr] at heq
          injection heq with hmsg
          exact absurd hmsg (by decide)
    · intro hl
      rw [if_pos hl]

/-- C9 witness: sizes latitude 1, tmin 1, tmax 2, tmean 1, doy 1 fail with an
error, and the error is not the latitude failure. -/
theorem C9_witness :
    (∃ e, hargreaves.size_checks 1 1 2 1 1 = Except.error e) ∧
      hargreaves.size_checks 1 1 2 1 1 ≠
        Except.error checking.latitude_error_message :=
  ⟨(C9_hargreaves_size_checks 1 1 2 1 1).1 (by decide),
    (C9_hargreaves_size_checks 1 1 2 1 1).2.1 rfl⟩

/-- Quartic Taylor sandwich for the sine on a nonnegative subinterval of the
unit interval. -/
theorem sin_interval (θ a b : ℝ) (ha : a ≤ θ) (hb : θ ≤ b) (h0 : 0 ≤ a)
    (h1 : b ≤ 1) :
    a - b ^ 3 / 6 - b ^ 4 * (5 / 96) ≤ Real.sin θ ∧
      Real.sin θ ≤ b - a ^ 3 / 6 + b ^ 4 * (5 / 96) := by
  have hθ0 : 0 ≤ θ := le_trans h0 ha
  have habs : |θ| ≤ 1 := abs_le.mpr ⟨by linarith, by linarith⟩
  have hsb := Real.sin_bound habs
  rw [abs_of_nonneg hθ0] at hsb
  obtain ⟨hl, hr⟩ := abs_le.mp hsb
  have h3a : a ^ 3 ≤ θ ^ 3 := pow_le_pow_left h0 ha 3
  have h3b : θ ^ 3 ≤ b ^ 3 := pow_le_pow_left hθ0 hb 3
  have h4 : θ ^ 4 ≤ b ^ 4 := pow_le_pow_left hθ0 hb 4
  have h40 : (0 : ℝ) ≤ θ ^ 4 := by positivity
  constructor <;> linarith

/-- Half-angle form of the cosine, used to evaluate cosines from sines. -/
theorem cos_eq_one_sub_two_sin_sq_half (x : ℝ) :
    Real.cos x = 1 - 2 * Real.sin (x / 2) ^ 2 := by
  have h := Real.cos_two_mul (x / 2)
  rw [show 2 * (x / 2) = x from by ring] at h
  have h2 := Real.sin_sq_add_cos_sq (x / 2)
  linarith

/-- Triple-angle form of the sine, used to evaluate a sine from the sine of a
third of its argument. -/
theorem sin_eq_three_mul_third (x : ℝ) :
    Real.sin x = 3 * Real.sin (x / 3) - 4 * Real.sin (x / 3) ^ 3 := by
  have h := Real.sin_three_mul (x / 3)
  rw [show 3 * (x / 3) = x from by ring] at h
  linarith

/-- Degree six Taylor sandwich for the exponential on the unit interval. -/
theorem exp_taylor6 (x : ℝ) (h0 : -1 ≤ x) (h1 : x ≤ 1) :
    1 + x + x ^ 2 / 2 + x ^ 3 / 6 + x ^ 4 / 24 + x ^ 5 / 120 - x ^ 6 * (7 / 4320) ≤
        Real.exp x ∧
      Real.exp x ≤
        1 + x + x ^ 2 / 2 + x ^ 3 / 6 + x ^ 4 / 24 + x ^ 5 / 120 +
          x ^ 6 * (7 / 4320) := by
  have habs : |x| ≤ 1 := abs_le.mpr ⟨h0, h1⟩
  have hb := Real.exp_bound habs (show 0 < 6 by norm_num)
  have habs6 : |x| ^ 6 = x ^ 6 := by
    rw [← abs_pow]
    exact abs_of_nonneg (by positivity)
  rw [habs6, abs_le] at hb
  obtain ⟨hl, hr⟩ := hb
  norm_num [Finset.sum_range_succ, Nat.factorial] at hl hr
  constructor <;> linarith

/-- Upper bound for the exponential of an argument below one. -/
theorem exp_le_inv_one_sub (y : ℝ) (h : y < 1) : Real.exp y ≤ 1 / (1 - y) := by
  have h1 := Real.add_one_le_exp (-y)
  have h2 : Real.exp y * Real.exp (-y) = 1 := by
    rw [← Real.exp_add]
    simp
  have h3 : 0 < Real.exp y := Real.exp_pos y
  have h4 : 0 < 1 - y := by linarith
  rw [le_div_iff h4]
  nlinarith

/-- Bounds for the Bangkok latitude in radians. -/
theorem bk_lat : 0.2396336564 ≤ bangkok.lat_rad ∧ bangkok.lat_rad ≤ 0.2396337328 := by
  have h1 := Real.pi_gt_d6
  have h2 := Real.pi_lt_d6
  simp only [bangkok.lat_rad, bangkok.latitude_graus]
  constructor <;> nlinarith

/-- Bounds for the sine of the Bangkok latitude. -/
theorem bk_sl : 0.2371684412 ≤ Real.sin bangkok.lat_rad ∧
    Real.sin bangkok.lat_rad ≤ 0.2375120150 := by
  obtain ⟨ha, hb⟩ := bk_lat
  obtain ⟨h1, h2⟩ := sin_interval bangkok.lat_rad 0.2396336564 0.2396337328 ha hb
    (by norm_num) (by norm_num)
  exact ⟨le_trans (by norm_num) h1, le_trans h2 (by norm_num)⟩

/-- Bounds for the sine of half the Bangkok latitude. -/
theorem bk_shl : 0.1195194105 ≤ Real.sin (bangkok.lat_rad / 2) ∧
    Real.sin (bangkok.lat_rad / 2) ≤ 0.1195409175 := by
  obtain ⟨ha, hb⟩ := bk_lat
  obtain ⟨h1, h2⟩ := sin_interval (bangkok.lat_rad / 2) 0.1198168282 0.1198168664
    (by linarith) (by linarith) (by norm_num) (by norm_num)
  exact ⟨le_trans (by norm_num) h1, le_trans h2 (by norm_num)⟩

/-- Bounds for the cosine of the Bangkok latitude. -/
theorem bk_cl : 0.9714199380 ≤ Real.cos bangkok.lat_rad ∧
    Real.cos bangkok.lat_rad ≤ 0.9714302211 := by
  obtain ⟨h1, h2⟩ := bk_shl
  rw [cos_eq_one_sub_two_sin_sq_half]
  have hsq1 : Real.sin (bangkok.lat_rad / 2) ^ 2 ≤ 0.1195409175 ^ 2 :=
    pow_le_pow_left₀ (by linarith) h2 2
  have hsq2 : (0.1195194105 : ℝ) ^ 2 ≤ Real.sin (bangkok.lat_rad / 2) ^ 2 :=
    pow_le_pow_left₀ (by norm_num) h1 2
  constructor <;> nlinarith

/-- Bounds for the sine of eleven pi over 146. -/
theorem bk_su : 0.2343216792 ≤ Real.sin (11 * Real.pi / 146) ∧
    Real.sin (11 * Real.pi / 146) ≤ 0.2346487118 := by
  have h1 := Real.pi_gt_d6
  have h2 := Real.pi_lt_d6
  obtain ⟨hl, hr⟩ := sin_interval (11 * Real.pi / 146) 0.2366952876 0.2366953631
    (by nlinarith) (by nlinarith) (by norm_num) (by norm_num)
  exact ⟨le_trans (by norm_num) hl, le_trans hr (by norm_num)⟩

/-- The Bangkok relative earth-sun distance rewritten through the sine. -/
theorem bk_dr_eq :
    bangkok.rel_dist_es = 1 - 0.033 * Real.sin (11 * Real.pi / 146) := by
  simp only [bangkok.rel_dist_es, astronomical_variables.relative_distance_earth_sun,
    bangkok.doy]
  push_cast
  rw [show 2 * Real.pi * 105 / 365 = Real.pi / 2 + 11 * Real.pi / 146 from by ring,
    Real.cos_add, Real.cos_pi_div_two, Real.sin_pi_div_two]
  ring

/-- Bounds for the Bangkok relative earth-sun distance. -/
theorem bk_dr : 0.9922565925 ≤ bangkok.rel_dist_es ∧
    bangkok.rel_dist_es ≤ 0.9922673846 := by
  rw [bk_dr_eq]
  obtain ⟨h1, h2⟩ := bk_su
  constructor <;> linarith

/-- Bounds for the sine of a third of the declination argument. -/
theorem bk_sw3 : 0.1386950389 ≤ Real.sin ((2 * Real.pi * 105 / 365 - 1.39) / 3) ∧
    Real.sin ((2 * Real.pi * 105 / 365 - 1.39) / 3) ≤ 0.1387343020 := by
  have h1 := Real.pi_gt_d6
  have h2 := Real.pi_lt_d6
  obtain ⟨hl, hr⟩ := sin_interval ((2 * Real.pi * 105 / 365 - 1.39) / 3)
    0.1391637625 0.1391639544 (by nlinarith) (by nlinarith) (by norm_num) (by norm_num)
  exact ⟨le_trans (by norm_num) hl, le_trans hr (by norm_num)⟩

/-- The Bangkok solar declination rewritten through the triple angle form. -/
theorem bk_dec_eq : bangkok.solar_dec =
    0.409 * (3 * Real.sin ((2 * Real.pi * 105 / 365 - 1.39) / 3) -
      4 * Real.sin ((2 * Real.pi * 105 / 365 - 1.39) / 3) ^ 3) := by
  simp only [bangkok.solar_dec, astronomical_variables.solar_declination, bangkok.doy]
  push_cast
  rw [← sin_eq_three_mul_third]

/-- Bounds for the Bangkok solar declination. -/
theorem bk_dec : 0.1658102873 ≤ bangkok.solar_dec ∧
    bangkok.solar_dec ≤ 0.1658621712 := by
  rw [bk_dec_eq]
  obtain ⟨h1, h2⟩ := bk_sw3
  have h3 : Real.sin ((2 * Real.pi * 105 / 365 - 1.39) / 3) ^ 3 ≤ 0.1387343020 ^ 3 :=
    pow_le_pow_left₀ (by linarith) h2 3
  have h4 : (0.1386950389 : ℝ) ^ 3 ≤
      Real.sin ((2 * Real.pi * 105 / 365 - 1.39) / 3) ^ 3 :=
    pow_le_pow_left₀ (by norm_num) h1 3
  constructor <;> nlinarith

/-- Bounds for the sine of the Bangkok solar declination. -/
theorem bk_sd : 0.1650103846 ≤ Real.sin bangkok.solar_dec ∧
    Real.sin bangkok.solar_dec ≤ 0.1651418169 := by
  obtain ⟨ha, hb⟩ := bk_dec
  obtain ⟨h1, h2⟩ := sin_interval bangkok.solar_dec 0.1658102873 0.1658621712 ha hb
    (by norm_num) (by norm_num)
  exact ⟨le_trans (by norm_num) h1, le_trans h2 (by norm_num)⟩

/-- Bounds for the sine of half the Bangkok solar declination. -/
theorem bk_shd : 0.0828076193 ≤ Real.sin (bangkok.solar_dec / 2) ∧
    Real.sin (bangkok.solar_dec / 2) ≤ 0.0828385778 := by
  obtain ⟨ha, hb⟩ := bk_dec
  obtain ⟨h1, h2⟩ := sin_interval (bangkok.solar_dec / 2) 0.0829051436 0.0829310856
    (by linarith) (by linarith) (by norm_num) (by norm_num)
  exact ⟨le_trans (by norm_num) h1, le_trans h2 (by norm_num)⟩

/-- Bounds for the cosine of the Bangkok solar declination. -/
theorem bk_cd : 0.9862755400 ≤ Real.cos bangkok.solar_dec ∧
    Real.cos bangkok.solar_dec ≤ 0.9862857964 := by
  obtain ⟨h1, h2⟩ := bk_shd
  rw [cos_eq_one_sub_two_sin_sq_half]
  have hsq1 : Real.sin (bangkok.solar_dec / 2) ^ 2 ≤ 0.0828385778 ^ 2 :=
    pow_le_pow_left₀ (by linarith) h2 2
  have hsq2 : (0.0828076193 : ℝ) ^ 2 ≤ Real.sin (bangkok.solar_dec / 2) ^ 2 :=
    pow_le_pow_left₀ (by norm_num) h1 2
  constructor <;> nlinarith

/-- Bounds for the tangent of the Bangkok latitude. -/
theorem bk_tl : 0.2441435689 ≤ Real.tan bangkok.lat_rad ∧
    Real.tan bangkok.lat_rad ≤ 0.2444998355 := by
  obtain ⟨hs1, hs2⟩ := bk_sl
  obtain ⟨hc1, hc2⟩ := bk_cl
  have hcpos : 0 < Real.cos bangkok.lat_rad := by linarith
  rw [Real.tan_eq_sin_div_cos]
  constructor
  · rw [le_div_iff₀ hcpos]
    nlinarith
  · rw [div_le_iff₀ hcpos]
    nlinarith

/-- Bounds for the tangent of the Bangkok solar declination. -/
theorem bk_td : 0.1673048372 ≤ Real.tan bangkok.solar_dec ∧
    Real.tan bangkok.solar_dec ≤ 0.1674398383 := by
  obtain ⟨hs1, hs2⟩ := bk_sd
  obtain ⟨hc1, hc2⟩ := bk_cd
  have hcpos : 0 < Real.cos bangkok.solar_dec := by linarith
  rw [Real.tan_eq_sin_div_cos]
  constructor
  · rw [le_div_iff₀ hcpos]
    nlinarith
  · rw [div_le_iff₀ hcpos]
    nlinarith

/-- Bounds for the product of the two tangents. -/
theorem bk_t : 0.0408464000 ≤ Real.tan bangkok.lat_rad * Real.tan bangkok.solar_dec ∧
    Real.tan bangkok.lat_rad * Real.tan bangkok.solar_dec ≤ 0.0409390130 := by
  obtain ⟨h1, h2⟩ := bk_tl
  obtain ⟨h3, h4⟩ := bk_td
  have hu : Real.tan bangkok.lat_rad * Real.tan bangkok.solar_dec ≤
      0.2444998355 * 0.1674398383 :=
    mul_le_mul h2 h4 (by linarith) (by norm_num)
  have hl : (0.2441435689 : ℝ) * 0.1673048372 ≤
      Real.tan bangkok.lat_rad * Real.tan bangkok.solar_dec :=
    mul_le_mul h1 h3 (by norm_num) (by linarith)
  exact ⟨le_trans (by norm_num) hl, le_trans hu (by norm_num)⟩

/-- Bounds for the arcsine of the tangent product. -/
theorem bk_arcsin :
    0.040854766 ≤ Real.arcsin (Real.tan bangkok.lat_rad * Real.tan bangkok.solar_dec) ∧
      Real.arcsin (Real.tan bangkok.lat_rad * Real.tan bangkok.solar_dec) ≤
        0.040953458 := by
  obtain ⟨ht1, ht2⟩ := bk_t
  have hπ1 := Real.pi_gt_d6
  have hmem_t : Real.tan bangkok.lat_rad * Real.tan bangkok.solar_dec ∈
      Set.Icc (-1 : ℝ) 1 := Set.mem_Icc.mpr ⟨by linarith, by linarith⟩
  constructor
  · have hmem_a : (0.040854766 : ℝ) ∈ Set.Icc (-(Real.pi / 2)) (Real.pi / 2) :=
      Set.mem_Icc.mpr ⟨by nlinarith, by nlinarith⟩
    apply (Real.le_arcsin_iff_sin_le hmem_a hmem_t).mpr
    have hs := (sin_interval 0.040854766 0.040854766 0.040854766 le_rfl le_rfl
      (by norm_num) (by norm_num)).2
    have hnum : (0.040854766 : ℝ) - 0.040854766 ^ 3 / 6 + 0.040854766 ^ 4 * (5 / 96) ≤
        0.0408464000 := by norm_num
    linarith
  · have hmem_b : (0.040953458 : ℝ) ∈ Set.Icc (-(Real.pi / 2)) (Real.pi / 2) :=
      Set.mem_Icc.mpr ⟨by nlinarith, by nlinarith⟩
    apply (Real.arcsin_le_iff_le_sin hmem_t hmem_b).mpr
    have hs := (sin_interval 0.040953458 0.040953458 0.040953458 le_rfl le_rfl
      (by norm_num) (by norm_num)).1
    have hnum : (0.0409390130 : ℝ) ≤
        0.040953458 - 0.040953458 ^ 3 / 6 - 0.040953458 ^ 4 * (5 / 96) := by norm_num
    linarith

/-- The Bangkok sunset hour angle as pi over two plus the arcsine. -/
theorem bk_sha_eq : bangkok.sha =
    Real.pi / 2 + Real.arcsin (Real.tan bangkok.lat_rad * Real.tan bangkok.solar_dec) := by
  simp only [bangkok.sha, astronomical_variables.sunset_hour_angle]
  rw [show -Real.tan bangkok.lat_rad * Real.tan bangkok.solar_dec =
      -(Real.tan bangkok.lat_rad * Real.tan bangkok.solar_dec) from by ring,
    Real.arccos_eq_pi_div_two_sub_arcsin, Real.arcsin_neg]
  ring

/-- Bounds for the Bangkok sunset hour angle. -/
theorem bk_sha : 1.6116507660 ≤ bangkok.sha ∧ bangkok.sha ≤ 1.6117499580 := by
  rw [bk_sha_eq]
  have h1 := Real.pi_gt_d6
  have h2 := Real.pi_lt_d6
  obtain ⟨h3, h4⟩ := bk_arcsin
  constructor <;> linarith

/-- Bounds for the Bangkok daylight hours. -/
theorem bk_N : 12.3121035678 ≤ bangkok.daylight_hrs ∧
    bangkok.daylight_hrs ≤ 12.3128652582 := by
  simp only [bangkok.daylight_hrs, astronomical_variables.daylight_hours]
  have h1 := Real.pi_gt_d6
  have h2 := Real.pi_lt_d6
  have hpp := Real.pi_pos
  obtain ⟨h3, h4⟩ := bk_sha
  constructor
  · rw [div_mul_eq_mul_div, le_div_iff₀ hpp]
    nlinarith
  · rw [div_mul_eq_mul_div, div_le_iff₀ hpp]
    nlinarith

/-- The sine of the Bangkok sunset hour angle as a square root. -/
theorem bk_ssha_eq : Real.sin bangkok.sha =
    Real.sqrt (1 - (Real.tan bangkok.lat_rad * Real.tan bangkok.solar_dec) ^ 2) := by
  simp only [bangkok.sha, astronomical_variables.sunset_hour_angle]
  rw [Real.sin_arccos]
  congr 1
  ring

/-- Bounds for the sine of the Bangkok sunset hour angle. -/
theorem bk_ssha : 0.9991616450 ≤ Real.sin bangkok.sha ∧
    Real.sin bangkok.sha ≤ 0.9991654400 := by
  rw [bk_ssha_eq]
  obtain ⟨ht1, ht2⟩ := bk_t
  have ht0 : (0 : ℝ) ≤ Real.tan bangkok.lat_rad * Real.tan bangkok.solar_dec := by
    linarith
  have hsq : (Real.tan bangkok.lat_rad * Real.tan bangkok.solar_dec) ^ 2 ≤
      0.0409390130 ^ 2 := pow_le_pow_left₀ ht0 ht2 2
  have hsq2 : (0.0408464000 : ℝ) ^ 2 ≤
      (Real.tan bangkok.lat_rad * Real.tan bangkok.solar_dec) ^ 2 :=
    pow_le_pow_left₀ (by norm_num) ht1 2
  constructor
  · have h1 : (0.9991616450 : ℝ) ^ 2 ≤
        1 - (Real.tan bangkok.lat_rad * Real.tan bangkok.solar_dec) ^ 2 := by nlinarith
    calc (0.9991616450 : ℝ) = Real.sqrt (0.9991616450 ^ 2) :=
          (Real.sqrt_sq (by norm_num)).symm
      _ ≤ Real.sqrt (1 - (Real.tan bangkok.lat_rad * Real.tan bangkok.solar_dec) ^ 2) :=
          Real.sqrt_le_sqrt h1
  · have h2 : 1 - (Real.tan bangkok.lat_rad * Real.tan bangkok.solar_dec) ^ 2 ≤
        (0.9991654400 : ℝ) ^ 2 := by nlinarith
    calc Real.sqrt (1 - (Real.tan bangkok.lat_rad * Real.tan bangkok.solar_dec) ^ 2) ≤
          Real.sqrt (0.9991654400 ^ 2) := Real.sqrt_le_sqrt h2
      _ = 0.9991654400 := Real.sqrt_sq (by norm_num)

set_option maxHeartbeats 1000000 in
/-- Bounds for the Bangkok extraterrestrial radiation. -/
theorem bk_ra : 38.0541924529 ≤ bangkok.ra ∧ bangkok.ra ≤ 38.0609324069 := by
  obtain ⟨hsha1, hsha2⟩ := bk_sha
  obtain ⟨hsl1, hsl2⟩ := bk_sl
  obtain ⟨hsd1, hsd2⟩ := bk_sd
  obtain ⟨hcl1, hcl2⟩ := bk_cl
  obtain ⟨hcd1, hcd2⟩ := bk_cd
  obtain ⟨hss1, hss2⟩ := bk_ssha
  obtain ⟨hdr1, hdr2⟩ := bk_dr
  have hp1a : (0.3822326999 : ℝ) ≤ bangkok.sha * Real.sin bangkok.lat_rad :=
    le_trans (by norm_num) (mul_le_mul hsha1 hsl1 (by norm_num) (by linarith))
  have hp1b : bangkok.sha * Real.sin bangkok.lat_rad ≤ 0.3828099803 :=
    le_trans (mul_le_mul hsha2 hsl2 (by linarith) (by norm_num)) (by norm_num)
  have hb1a : (0.0630723648 : ℝ) ≤
      bangkok.sha * Real.sin bangkok.lat_rad * Real.sin bangkok.solar_dec :=
    le_trans (by norm_num) (mul_le_mul hp1a hsd1 (by norm_num) (by linarith))
  have hb1b : bangkok.sha * Real.sin bangkok.lat_rad * Real.sin bangkok.solar_dec ≤
      0.0632179357 :=
    le_trans (mul_le_mul hp1b hsd2 (by linarith) (by norm_num)) (by norm_num)
  have hp2a : (0.9580877239 : ℝ) ≤ Real.cos bangkok.lat_rad * Real.cos bangkok.solar_dec :=
    le_trans (by norm_num) (mul_le_mul hcl1 hcd1 (by norm_num) (by linarith))
  have hp2b : Real.cos bangkok.lat_rad * Real.cos bangkok.solar_dec ≤ 0.9581078293 :=
    le_trans (mul_le_mul hcl2 hcd2 (by linarith) (by norm_num)) (by norm_num)
  have hb2a : (0.9572845062 : ℝ) ≤
      Real.cos bangkok.lat_rad * Real.cos bangkok.solar_dec * Real.sin bangkok.sha :=
    le_trans (by norm_num) (mul_le_mul hp2a hss1 (by norm_num) (by linarith))
  have hb2b : Real.cos bangkok.lat_rad * Real.cos bangkok.solar_dec *
      Real.sin bangkok.sha ≤ 0.9573082309 :=
    le_trans (mul_le_mul hp2b hss2 (by linarith) (by norm_num)) (by norm_num)
  simp only [bangkok.ra, radiation_variables.extra_terrestrial_radiation]
  set B := bangkok.sha * Real.sin bangkok.lat_rad * Real.sin bangkok.solar_dec +
    Real.cos bangkok.lat_rad * Real.cos bangkok.solar_dec * Real.sin bangkok.sha with hBdef
  have hBa : (1.0203568710 : ℝ) ≤ B := by rw [hBdef]; linarith
  have hBb : B ≤ 1.0205261666 := by rw [hBdef]; linarith
  have hCa : (1.0124558319 : ℝ) ≤ bangkok.rel_dist_es * B :=
    le_trans (by norm_num) (mul_le_mul hdr1 hBa (by norm_num) (by linarith))
  have hCb : bangkok.rel_dist_es * B ≤ 1.0126348303 :=
    le_trans (mul_le_mul hdr2 hBb (by linarith) (by norm_num)) (by norm_num)
  have heq : 24.0 * 60.0 / Real.pi * 0.0820 * bangkok.rel_dist_es * B =
      118.08 * (bangkok.rel_dist_es * B) / Real.pi := by ring
  rw [heq]
  have h1 := Real.pi_gt_d6
  have h2 := Real.pi_lt_d6
  constructor
  · rw [le_div_iff₀ Real.pi_pos]
    nlinarith
  · rw [div_le_iff₀ Real.pi_pos]
    nlinarith

/-- Bounds for the Bangkok solar radiation. -/
theorem bk_rs : 22.6486157440 ≤ bangkok.rs ∧ bangkok.rs ≤ 22.6534398983 := by
  simp only [bangkok.rs, radiation_variables.solar_radiation, bangkok.sunshine]
  obtain ⟨hN1, hN2⟩ := bk_N
  obtain ⟨hra1, hra2⟩ := bk_ra
  have hNpos : 0 < bangkok.daylight_hrs := by linarith
  have hq1 : (0.6903348507 : ℝ) ≤ 8.5 / bangkok.daylight_hrs := by
    rw [le_div_iff₀ hNpos]
    nlinarith
  have hq2 : 8.5 / bangkok.daylight_hrs ≤ 0.6903775585 := by
    rw [div_le_iff₀ hNpos]
    nlinarith
  have hf1 : (0.5951674253 : ℝ) ≤ 0.25 + 0.5 * (8.5 / bangkok.daylight_hrs) := by
    linarith
  have hf2 : 0.25 + 0.5 * (8.5 / bangkok.daylight_hrs) ≤ 0.5951887793 := by
    linarith
  constructor
  · exact le_trans (by norm_num) (mul_le_mul hf1 hra1 (by norm_num) (by linarith))
  · exact le_trans (mul_le_mul hf2 hra2 (by linarith) (by norm_num)) (by norm_num)

/-- Bounds for the Bangkok clear-sky shortwave radiation. -/
theorem bk_rso : 28.5421665073 ≤ bangkok.rso ∧ bangkok.rso ≤ 28.5472217425 := by
  simp only [bangkok.rso, radiation_variables.clear_sky_shortwave_radiation,
    bangkok.altitude]
  obtain ⟨h1, h2⟩ := bk_ra
  constructor <;> nlinarith

/-- Bounds for the Bangkok net shortwave radiation. -/
theorem bk_rns : 17.4394341228 ≤ bangkok.rns ∧ bangkok.rns ≤ 17.4431487217 := by
  simp only [bangkok.rns, radiation_variables.net_shortwave_radiation]
  obtain ⟨h1, h2⟩ := bk_rs
  constructor <;> nlinarith

/-- Bounds for the Bangkok net longwave radiation. -/
theorem bk_rnl : 3.1077279752 ≤ bangkok.rnl ∧ bangkok.rnl ≤ 3.1095294254 := by
  obtain ⟨hrs1, hrs2⟩ := bk_rs
  obtain ⟨hrso1, hrso2⟩ := bk_rso
  have hrsopos : 0 < bangkok.rso := by linarith
  have hcond : bangkok.rs / bangkok.rso ≤ 1 := by
    rw [div_le_one hrsopos]
    linarith
  have hr1 : (0.7933737282 : ℝ) ≤ bangkok.rs / bangkok.rso := by
    rw [le_div_iff₀ hrsopos]
    nlinarith
  have hr2 : bangkok.rs / bangkok.rso ≤ 0.7936832649 := by
    rw [div_le_iff₀ hrsopos]
    nlinarith
  have hsq1 : (1.6881943 : ℝ) ≤ Real.sqrt 2.85 := by
    calc (1.6881943 : ℝ) = Real.sqrt (1.6881943 ^ 2) :=
          (Real.sqrt_sq (by norm_num)).symm
      _ ≤ Real.sqrt 2.85 := Real.sqrt_le_sqrt (by norm_num)
  have hsq2 : Real.sqrt 2.85 ≤ 1.6881944 := by
    calc Real.sqrt 2.85 ≤ Real.sqrt (1.6881944 ^ 2) := Real.sqrt_le_sqrt (by norm_num)
      _ = 1.6881944 := Real.sqrt_sq (by norm_num)
  simp only [bangkok.rnl, radiation_variables.net_longwave_radiation, bangkok.tmax,
    bangkok.tmin, bangkok.ea]
  rw [if_pos hcond]
  have hK1 : (4.3099763375 : ℝ) ≤ 4.903e-9 * 0.5 *
      ((34.8 + 273.16) ^ 4 + (25.6 + 273.16) ^ 4) *
      (0.34 - 0.14 * Real.sqrt 2.85) := by nlinarith
  have hK2 : 4.903e-9 * 0.5 * ((34.8 + 273.16) ^ 4 + (25.6 + 273.16) ^ 4) *
      (0.34 - 0.14 * Real.sqrt 2.85) ≤ 4.3099769197 := by nlinarith
  have hm1 : (0.7210545330 : ℝ) ≤ 1.35 * (bangkok.rs / bangkok.rso) - 0.35 := by
    linarith
  have hm2 : 1.35 * (bangkok.rs / bangkok.rso) - 0.35 ≤ 0.7214724077 := by
    linarith
  constructor
  · exact le_trans (by norm_num)
      (mul_le_mul hK1 hm1 (by norm_num) (le_trans (by norm_num) hK1))
  · exact le_trans (mul_le_mul hK2 hm2 (by linarith) (by norm_num)) (by norm_num)

/-- Bounds for the Bangkok net radiation. -/
theorem bk_rn : 14.3299046974 ≤ bangkok.rn ∧ bangkok.rn ≤ 14.3354207465 := by
  simp only [bangkok.rn]
  obtain ⟨h1, h2⟩ := bk_rns
  obtain ⟨h3, h4⟩ := bk_rnl
  constructor <;> linarith

/-- The Bangkok soil heat flux equals 0.14 exactly. -/
theorem bk_g : bangkok.g = 0.14 := by
  simp only [bangkok.g, radiation_variables.soil_heat_flux, bangkok.temp_march,
    bangkok.temp_april]
  norm_num

/-- The Bangkok mean temperature equals 30.2 exactly. -/
theorem bk_tmean : bangkok.tmean = 30.2 := by
  simp only [bangkok.tmean, bangkok.tmax, bangkok.tmin]
  norm_num

/-- Bounds for the Bangkok vapour pressure slope delta. -/
theorem bk_delta : 0.2458002830 ≤ bangkok.delta ∧ bangkok.delta ≤ 0.2458002832 := by
  simp only [bangkok.delta,
    meteorological_variables.slope_saturation_vapour_pressure_curve, bk_tmean]
  have hsplit : Real.exp (17.27 * 30.2 / (30.2 + 237.3)) =
      Real.exp 1 * Real.exp 1 * Real.exp (17.27 * 30.2 / (30.2 + 237.3) - 2) := by
    rw [← Real.exp_add, ← Real.exp_add]
    congr 1
    norm_num
  have hx := exp_taylor6 (17.27 * 30.2 / (30.2 + 237.3) - 2) (by norm_num) (by norm_num)
  have hxa : (0.9509769821 : ℝ) ≤ Real.exp (17.27 * 30.2 / (30.2 + 237.3) - 2) :=
    le_trans (by norm_num) hx.1
  have hxb : Real.exp (17.27 * 30.2 / (30.2 + 237.3) - 2) ≤ 0.9509769822 :=
    le_trans hx.2 (by norm_num)
  have he1 := Real.exp_one_gt_d9
  have he2 := Real.exp_one_lt_d9
  have hea : (7.3890560980 : ℝ) ≤ Real.exp 1 * Real.exp 1 := by nlinarith
  have heb : Real.exp 1 * Real.exp 1 ≤ 7.3890560997 := by nlinarith
  have hpa : (7.0268222686 : ℝ) ≤ Real.exp (17.27 * 30.2 / (30.2 + 237.3)) := by
    rw [hsplit]
    exact le_trans (by norm_num) (mul_le_mul hea hxa (by norm_num) (by linarith))
  have hpb : Real.exp (17.27 * 30.2 / (30.2 + 237.3)) ≤ 7.0268222710 := by
    rw [hsplit]
    exact le_trans (mul_le_mul heb hxb (by linarith) (by norm_num)) (by norm_num)
  have hden : ((30.2 : ℝ) + 237.3) ^ 2 = 71556.25 := by norm_num
  rw [hden]
  constructor
  · rw [le_div_iff₀ (by norm_num : (0 : ℝ) < 71556.25)]
    nlinarith
  · rw [div_le_iff₀ (by norm_num : (0 : ℝ) < 71556.25)]
    nlinarith

/-- Bounds for the Bangkok mean saturation vapour pressure. -/
theorem bk_es : 4.4217903122 ≤ bangkok.es ∧ bangkok.es ≤ 4.4217985277 := by
  simp only [bangkok.es, meteorological_variables.mean_saturation_vapor_pressure,
    meteorological_variables.saturation_vapor_pressure, bangkok.tmin, bangkok.tmax]
  have he1 := Real.exp_one_gt_d9
  have he2 := Real.exp_one_lt_d9
  have hea : (7.3890560980 : ℝ) ≤ Real.exp 1 * Real.exp 1 := by nlinarith
  have heb : Real.exp 1 * Real.exp 1 ≤ 7.3890560997 := by nlinarith
  have hsplit1 : Real.exp (17.27 * 25.6 / (25.6 + 237.3)) =
      Real.exp 1 * Real.exp 1 * Real.exp (17.27 * 25.6 / (25.6 + 237.3) - 2) := by
    rw [← Real.exp_add, ← Real.exp_add]
    congr 1
    norm_num
  have hx1 := exp_taylor6 (17.27 * 25.6 / (25.6 + 237.3) - 2) (by norm_num) (by norm_num)
  have hx1a : (0.7273622989 : ℝ) ≤ Real.exp (17.27 * 25.6 / (25.6 + 237.3) - 2) :=
    le_trans (by norm_num) hx1.1
  have hx1b : Real.exp (17.27 * 25.6 / (25.6 + 237.3) - 2) ≤ 0.7273656709 :=
    le_trans hx1.2 (by norm_num)
  have hqa : (5.3745208301 : ℝ) ≤ Real.exp (17.27 * 25.6 / (25.6 + 237.3)) := by
    rw [hsplit1]
    exact le_trans (by norm_num) (mul_le_mul hea hx1a (by norm_num) (by linarith))
  have hqb : Real.exp (17.27 * 25.6 / (25.6 + 237.3)) ≤ 5.3745457473 := by
    rw [hsplit1]
    exact le_trans (mul_le_mul heb hx1b (by linarith) (by norm_num)) (by norm_num)
  have hsplit2 : Real.exp (17.27 * 34.8 / (34.8 + 237.3)) =
      Real.exp 1 * Real.exp 1 * Real.exp (17.27 * 34.8 / (34.8 + 237.3) - 2) := by
    rw [← Real.exp_add, ← Real.exp_add]
    congr 1
    norm_num
  have hx2 := exp_taylor6 (17.27 * 34.8 / (34.8 + 237.3) - 2) (by norm_num) (by norm_num)
  have hx2a : (1.2321145983 : ℝ) ≤ Real.exp (17.27 * 34.8 / (34.8 + 237.3) - 2) :=
    le_trans (by norm_num) hx2.1
  have hx2b : Real.exp (17.27 * 34.8 / (34.8 + 237.3) - 2) ≤ 1.2321148664 :=
    le_trans hx2.2 (by norm_num)
  have hra : (9.1041638860 : ℝ) ≤ Real.exp (17.27 * 34.8 / (34.8 + 237.3)) := by
    rw [hsplit2]
    exact le_trans (by norm_num) (mul_le_mul hea hx2a (by norm_num) (by linarith))
  have hrb : Real.exp (17.27 * 34.8 / (34.8 + 237.3)) ≤ 9.1041658692 := by
    rw [hsplit2]
    exact le_trans (mul_le_mul heb hx2b (by linarith) (by norm_num)) (by norm_num)
  constructor <;> nlinarith

/-- Bounds for the Bangkok psychrometric constant. -/
theorem bk_psi : 0.0673487778 ≤ bangkok.psi_const ∧
    bangkok.psi_const ≤ 0.0673487823 := by
  simp only [bangkok.psi_const, meteorological_variables.psychrometric_constant,
    bangkok.atm_p, meteorological_variables.atmospheric_pressure, bangkok.altitude]
  have hbase : (0 : ℝ) < (293 - 0.0065 * 2) / 293 := by norm_num
  rw [Real.rpow_def_of_pos hbase]
  have hlog_up := Real.log_le_sub_one_of_pos hbase
  have hinvpos : (0 : ℝ) < ((293 - 0.0065 * 2) / 293)⁻¹ := inv_pos.mpr hbase
  have h2 := Real.log_le_sub_one_of_pos hinvpos
  rw [Real.log_inv] at h2
  have hL1 : 1 - ((293 - 0.0065 * 2) / 293)⁻¹ ≤ Real.log ((293 - 0.0065 * 2) / 293) := by
    linarith
  have hexp_lo : (0.9997666108 : ℝ) ≤
      Real.exp (Real.log ((293 - 0.0065 * 2) / 293) * 5.26) := by
    have h3 := Real.add_one_le_exp (Real.log ((293 - 0.0065 * 2) / 293) * 5.26)
    have h4 : (1 - ((293 - 0.0065 * 2) / 293)⁻¹) * 5.26 + 1 ≤
        Real.log ((293 - 0.0065 * 2) / 293) * 5.26 + 1 := by nlinarith
    have h5 : (0.9997666108 : ℝ) ≤ (1 - ((293 - 0.0065 * 2) / 293)⁻¹) * 5.26 + 1 := by
      norm_num
    linarith
  have hexp_hi : Real.exp (Real.log ((293 - 0.0065 * 2) / 293) * 5.26) ≤
      0.9997666757 := by
    have hyb : Real.log ((293 - 0.0065 * 2) / 293) * 5.26 ≤ -0.0002333788 := by
      nlinarith
    have h4 := Real.exp_le_exp.mpr hyb
    have h5 := exp_le_inv_one_sub (-0.0002333788) (by norm_num)
    have h6 : (1 : ℝ) / (1 - -0.0002333788) ≤ 0.9997666757 := by norm_num
    linarith
  constructor <;> nlinarith

set_option maxHeartbeats 2000000 in
/-- Bounds for the Bangkok reference evapotranspiration. -/
theorem bk_eto : 5.7153450892 ≤ bangkok.eto ∧ bangkok.eto ≤ 5.7168956276 := by
  obtain ⟨hd1, hd2⟩ := bk_delta
  obtain ⟨hg1, hg2⟩ := bk_psi
  obtain ⟨hes1, hes2⟩ := bk_es
  obtain ⟨hrn1, hrn2⟩ := bk_rn
  simp only [bangkok.eto, penman_monteith_FAO.calculate_precomputed, bk_tmean, bk_g,
    bangkok.ea, bangkok.u2]
  rw [show (2.0 : ℝ) = 2 from by norm_num]
  have hpd1 : (0.1002865154 : ℝ) ≤ 0.408 * bangkok.delta := by linarith
  have hpd2 : 0.408 * bangkok.delta ≤ 0.1002865156 := by linarith
  have hrn1m : (14.1899046974 : ℝ) ≤ bangkok.rn - 0.14 := by linarith
  have hrn2m : bangkok.rn - 0.14 ≤ 14.1954207465 := by linarith
  have hA1 : (1.4230560959 : ℝ) ≤ 0.408 * bangkok.delta * (bangkok.rn - 0.14) :=
    le_trans (by norm_num) (mul_le_mul hpd1 hrn1m (by norm_num) (by linarith))
  have hA2 : 0.408 * bangkok.delta * (bangkok.rn - 0.14) ≤ 1.4236092842 :=
    le_trans (mul_le_mul hpd2 hrn2m (by linarith) (by norm_num)) (by norm_num)
  have hpk1 : (0.3998278365 : ℝ) ≤ bangkok.psi_const * (900 / (30.2 + 273)) * 2 := by
    nlinarith
  have hpk2 : bangkok.psi_const * (900 / (30.2 + 273)) * 2 ≤ 0.3998278633 := by
    nlinarith
  have hesm1 : (1.5717903122 : ℝ) ≤ bangkok.es - 2.85 := by linarith
  have hesm2 : bangkok.es - 2.85 ≤ 1.5717985277 := by linarith
  have hB1 : (0.6284455199 : ℝ) ≤
      bangkok.psi_const * (900 / (30.2 + 273)) * 2 * (bangkok.es - 2.85) :=
    le_trans (by norm_num) (mul_le_mul hpk1 hesm1 (by norm_num)
      (le_trans (by norm_num) hpk1))
  have hB2 : bangkok.psi_const * (900 / (30.2 + 273)) * 2 * (bangkok.es - 2.85) ≤
      0.6284488469 :=
    le_trans (mul_le_mul hpk2 hesm2 (by linarith) (by norm_num)) (by norm_num)
  have hD1 : (0.3589462297 : ℝ) ≤
      bangkok.delta + bangkok.psi_const * (1 + 0.34 * 2) := by nlinarith
  have hD2 : bangkok.delta + bangkok.psi_const * (1 + 0.34 * 2) ≤ 0.3589462375 := by
    nlinarith
  have hDpos : (0 : ℝ) < bangkok.delta + bangkok.psi_const * (1 + 0.34 * 2) := by
    linarith
  constructor
  · rw [le_div_iff₀ hDpos]
    nlinarith
  · rw [div_le_iff₀ hDpos]
    nlinarith

/-- C2: chaining the astronomical, radiation and psychrometric primitives into
the modelled Penman-Monteith evaluator on the Bangkok example inputs
(altitude 2 m, latitude 13.73 degrees, doy 105, tmax 34.8, tmin 25.6,
ea 2.85 kPa, u2 2.0 m/s, soil heat flux 0.14 by the monthly rule) yields an
ETo within 0.01 of 5.72 mm per day. -/
theorem C2_bangkok_penman_monteith : |bangkok.eto - 5.72| < 0.01 := by
  obtain ⟨h1, h2⟩ := bk_eto
  rw [abs_lt]
  constructor <;> linarith
